import Mathlib

/-!
Shallow embedding of the telemetry server in `server/src/index.ts`.

The server keeps a MongoDB collection of telemetry documents.  We model a
JavaScript runtime value (`JSVal`), the subset of values whose `typeof` is
`'number'` (`JSNum`, a rational or `NaN`), the mongoose schema validation
(`validateTelemetry`, from the `min`/`max`/`required` options of
`telemetrySchema`), the `save` call, and the two HTTP handlers
(`postTelemetry` for `POST /api/telemetry`, `getTelemetry` for
`GET /api/telemetry`).  Document identifiers are modelled as a
monotonically increasing counter, matching MongoDB object-id ordering used
by `.sort({_id: -1})`.
-/

set_option allowUnsafeReducibility true
attribute [local semireducible] Rat.add Rat.sub Rat.mul Rat.div Rat.inv

namespace FlightMonitor

/-- A JavaScript value whose `typeof` is `'number'`: a finite number
(modelled as a rational) or `NaN`. -/
inductive JSNum where
  | num (q : ℚ)
  | nan
deriving DecidableEq

/-- A JavaScript runtime value, as far as the handlers inspect one:
numbers (including `NaN`), strings, booleans, `null` and `undefined`
(a missing body field destructures to `undefined`). -/
inductive JSVal where
  | num (q : ℚ)
  | nan
  | str (s : String)
  | boolean (b : Bool)
  | null
  | undef
deriving DecidableEq

/-- `typeof v === 'number'`: true exactly for finite numbers and `NaN`. -/
def JSVal.typeofIsNumber : JSVal → Bool
  | .num _ => true
  | .nan => true
  | _ => false

/-- The numeric view of a value: `some` exactly when `typeof` is `'number'`. -/
def JSVal.asNumber : JSVal → Option JSNum
  | .num q => some (.num q)
  | .nan => some .nan
  | _ => none

/-- Truncation toward zero, as ECMAScript's remainder operator uses. -/
def qtrunc (q : ℚ) : ℤ := if 0 ≤ q then ⌊q⌋ else ⌈q⌉

/-- The ECMAScript `%` operator on finite numbers:
`x % y = x - y * trunc (x / y)`, so the result takes the sign of `x`. -/
def jsRem (x y : ℚ) : ℚ := x - y * (qtrunc (x / y) : ℚ)

/-- `HIS % 360` as evaluated by the handler: `NaN % 360` is `NaN`. -/
def JSNum.mod360 : JSNum → JSNum
  | .num q => .num (jsRem q 360)
  | .nan => .nan

/-- Mongoose `min` validator: `v >= min`; any comparison with `NaN` is false. -/
def JSNum.geQ : JSNum → ℚ → Bool
  | .num q, m => decide (m ≤ q)
  | .nan, _ => false

/-- Mongoose `max` validator: `v <= max`; any comparison with `NaN` is false. -/
def JSNum.leQ : JSNum → ℚ → Bool
  | .num q, m => decide (q ≤ m)
  | .nan, _ => false

/-- A persisted telemetry document: the three schema fields plus the
store-assigned identifier used for ordering. -/
structure TelemetryDoc where
  docId : Nat
  Altitude : JSNum
  HIS : JSNum
  ADI : JSNum
deriving DecidableEq

/-- The state of the backing store: documents in insertion order, and the
next identifier to assign. -/
structure ServerState where
  docs : List TelemetryDoc
  nextId : Nat
deriving DecidableEq

/-- The store before any insert. -/
def initialState : ServerState := ⟨[], 0⟩

/-- The `telemetrySchema` validators: `Altitude` in `[0, 3000]`, `HIS` in
`[0, 360]`, `ADI` in `[-100, 100]` (all three fields are present on every
document the handler builds, so `required` always passes). -/
def validateTelemetry (alt his adi : JSNum) : Bool :=
  alt.geQ 0 && alt.leQ 3000 && his.geQ 0 && his.leQ 360 &&
    adi.geQ (-100) && adi.leQ 100

/-- The message of the mongoose `ValidationError` thrown by `save` when a
schema validator fails. -/
def validationFailedMsg : String := "Telemetry validation failed"

/-- Fixed message of the service-level type check. -/
def invalidInputMsg : String := "Invalid input: all fields must be numbers"

/-- `new Telemetry(...).save()`: runs the schema validators; on success
appends the document with the next identifier, otherwise rejects with a
`ValidationError` and leaves the store unchanged. -/
def save (alt his adi : JSNum) (s : ServerState) : Except String ServerState :=
  if validateTelemetry alt his adi then
    .ok ⟨s.docs ++ [⟨s.nextId, alt, his, adi⟩], s.nextId + 1⟩
  else
    .error validationFailedMsg

/-- `POST /api/telemetry`: destructures `Altitude`, `HIS`, `ADI` from the
body; if any fails the `typeof ... !== 'number'` check, responds
`400` with the fixed message; otherwise builds the document with
`HIS % 360` and saves it, responding `201 "Data saved"` on success and
`400` with the error's message on a save failure. -/
def postTelemetry (altitude his adi : JSVal) (s : ServerState) :
    (Nat × String) × ServerState :=
  match altitude.asNumber, his.asNumber, adi.asNumber with
  | some a, some h, some d =>
    match save a h.mod360 d s with
    | .ok s2 => ((201, "Data saved"), s2)
    | .error msg => ((400, msg), s)
  | _, _, _ => ((400, invalidInputMsg), s)

/-- Insert a document into a list kept in descending identifier order. -/
def insertDesc (d : TelemetryDoc) : List TelemetryDoc → List TelemetryDoc
  | [] => [d]
  | e :: es => if e.docId ≤ d.docId then d :: e :: es else e :: insertDesc d es

/-- Sort documents by descending identifier, as `.sort({_id: -1})` does. -/
def sortByIdDesc : List TelemetryDoc → List TelemetryDoc
  | [] => []
  | d :: ds => insertDesc d (sortByIdDesc ds)

/-- `GET /api/telemetry`: `Telemetry.find().sort({_id: -1})` followed by
`res.json(data)` — responds `200` with every stored document ordered
newest first, without touching the store. -/
def getTelemetry (s : ServerState) : (Nat × List TelemetryDoc) × ServerState :=
  ((200, sortByIdDesc s.docs), s)

/-- Store well-formedness: documents sit in insertion order with strictly
increasing identifiers, all below the next identifier to assign. -/
def goodState (s : ServerState) : Prop :=
  s.docs.Pairwise (fun a b => a.docId < b.docId) ∧
    ∀ d ∈ s.docs, d.docId < s.nextId

instance (s : ServerState) : Decidable (goodState s) := by
  unfold goodState; infer_instance

/-- The range invariant of a persisted document: all three fields are
numbers within the schema bounds, with the heading already normalized
into `[0, 360)`. -/
def docInvariant (d : TelemetryDoc) : Bool :=
  match d.Altitude, d.HIS, d.ADI with
  | .num a, .num h, .num v =>
    decide (0 ≤ a ∧ a ≤ 3000 ∧ 0 ≤ h ∧ h < 360 ∧ -100 ≤ v ∧ v ≤ 100)
  | _, _, _ => false

/-- Store states reachable through the service's handlers. -/
inductive Reachable : ServerState → Prop where
  | init : Reachable initialState
  | post (a h d : JSVal) {s : ServerState} :
      Reachable s → Reachable (postTelemetry a h d s).2
  | get {s : ServerState} : Reachable s → Reachable (getTelemetry s).2

/-! ### Arithmetic facts about the ECMAScript remainder -/

/-- For a nonnegative dividend, the ECMAScript remainder by 360 is the
fractional part of `x / 360` scaled back by 360. -/
theorem jsRem_eq_fract (x : ℚ) (hx : 0 ≤ x) :
    jsRem x 360 = 360 * Int.fract (x / 360) := by
  have h1 : (360 : ℚ) * (x / 360) = x := by field_simp
  unfold jsRem qtrunc
  rw [if_pos (div_nonneg hx (by norm_num)), Int.fract, mul_sub, h1]

/-- A nonnegative heading stays nonnegative under `% 360`. -/
theorem jsRem_nonneg (x : ℚ) (hx : 0 ≤ x) : 0 ≤ jsRem x 360 := by
  rw [jsRem_eq_fract x hx]
  exact mul_nonneg (by norm_num) (Int.fract_nonneg _)

/-- `x % 360` never reaches 360: nonnegative dividends land in `[0, 360)`
and negative dividends give a nonpositive remainder. -/
theorem jsRem_lt (x : ℚ) : jsRem x 360 < 360 := by
  rcases le_or_lt 0 x with hx | hx
  · rw [jsRem_eq_fract x hx]
    have h1 := Int.fract_lt_one (x / 360)
    nlinarith
  · have hq : x / 360 < 0 := div_neg_of_neg_of_pos hx (by norm_num)
    unfold jsRem qtrunc
    rw [if_neg (not_le.mpr hq)]
    have h1 : x / 360 ≤ (⌈x / 360⌉ : ℚ) := Int.le_ceil _
    have h2 : x ≤ 360 * (⌈x / 360⌉ : ℚ) := by
      have h3 := mul_le_mul_of_nonneg_left h1 (by norm_num : (0 : ℚ) ≤ 360)
      have h4 : (360 : ℚ) * (x / 360) = x := by field_simp
      linarith
    linarith

/-! ### The validators and the POST handler -/

/-- Schema validation on three finite numbers is exactly the three
range checks. -/
theorem validateTelemetry_num (a h d : ℚ) :
    validateTelemetry (.num a) (.num h) (.num d) = true ↔
      (0 ≤ a ∧ a ≤ 3000 ∧ 0 ≤ h ∧ h ≤ 360 ∧ -100 ≤ d ∧ d ≤ 100) := by
  simp [validateTelemetry, JSNum.geQ, JSNum.leQ, and_assoc]

/-- The POST handler on three finite numbers: normalize the heading, then
either persist and acknowledge or reject with the store's error. -/
theorem postTelemetry_num (a h d : ℚ) (s : ServerState) :
    postTelemetry (.num a) (.num h) (.num d) s =
      if validateTelemetry (.num a) (.num (jsRem h 360)) (.num d) then
        ((201, "Data saved"),
         ⟨s.docs ++ [⟨s.nextId, .num a, .num (jsRem h 360), .num d⟩],
          s.nextId + 1⟩)
      else ((400, validationFailedMsg), s) := by
  by_cases hv : validateTelemetry (.num a) (.num (jsRem h 360)) (.num d) = true
  · rw [if_pos hv]
    simp only [postTelemetry, JSVal.asNumber, JSNum.mod360, save, hv, if_true]
  · rw [if_neg hv]
    simp only [postTelemetry, JSVal.asNumber, JSNum.mod360, save,
      Bool.not_eq_true] at hv ⊢
    simp [hv]

/-- The handler responds 400 with the fixed message as soon as one field
fails the `typeof` check. -/
theorem postTelemetry_not_number (a h d : JSVal) (s : ServerState)
    (hbad : a.asNumber = none ∨ h.asNumber = none ∨ d.asNumber = none) :
    postTelemetry a h d s = ((400, invalidInputMsg), s) := by
  rcases hbad with hb | hb | hb
  · unfold postTelemetry
    rw [hb]
  · cases ha : a.asNumber with
    | none => unfold postTelemetry; rw [ha]
    | some an => unfold postTelemetry; rw [ha, hb]
  · cases ha : a.asNumber with
    | none => unfold postTelemetry; rw [ha]
    | some an =>
      cases hh : h.asNumber with
      | none => unfold postTelemetry; rw [ha, hh]
      | some hn => unfold postTelemetry; rw [ha, hh, hb]

/-- When all three fields pass the `typeof` check, the handler normalizes
the heading and delegates the outcome to the schema validation. -/
theorem postTelemetry_some (a h d : JSVal) (an hn dn : JSNum)
    (ha : a.asNumber = some an) (hh : h.asNumber = some hn)
    (hd : d.asNumber = some dn) (s : ServerState) :
    postTelemetry a h d s =
      if validateTelemetry an hn.mod360 dn then
        ((201, "Data saved"),
         ⟨s.docs ++ [⟨s.nextId, an, hn.mod360, dn⟩], s.nextId + 1⟩)
      else ((400, validationFailedMsg), s) := by
  unfold postTelemetry save
  rw [ha, hh, hd]
  by_cases hv : validateTelemetry an hn.mod360 dn = true
  · simp [hv]
  · simp only [Bool.not_eq_true] at hv
    simp [hv]

/-- A `NaN` altitude fails every schema validator. -/
theorem validateTelemetry_nan_alt (his adi : JSNum) :
    validateTelemetry .nan his adi = false := by
  simp [validateTelemetry, JSNum.geQ]

/-- A `NaN` heading fails every schema validator. -/
theorem validateTelemetry_nan_his (alt adi : JSNum) :
    validateTelemetry alt .nan adi = false := by
  simp [validateTelemetry, JSNum.geQ]

/-- A `NaN` attitude fails every schema validator. -/
theorem validateTelemetry_nan_adi (alt his : JSNum) :
    validateTelemetry alt his .nan = false := by
  simp [validateTelemetry, JSNum.geQ]

/-- Every call of the POST handler either leaves the store untouched and
reports 400, or appends exactly one schema-valid document built from
finite numbers with the heading normalized by `% 360`. -/
theorem postTelemetry_cases (a h d : JSVal) (s : ServerState) :
    ((postTelemetry a h d s).2 = s ∧ (postTelemetry a h d s).1.1 = 400) ∨
    ∃ an hn dn : ℚ,
      validateTelemetry (.num an) (.num (jsRem hn 360)) (.num dn) = true ∧
      postTelemetry a h d s =
        ((201, "Data saved"),
         ⟨s.docs ++ [⟨s.nextId, .num an, .num (jsRem hn 360), .num dn⟩],
          s.nextId + 1⟩) := by
  cases ha : a.asNumber with
  | none =>
    rw [postTelemetry_not_number a h d s (Or.inl ha)]
    exact Or.inl ⟨rfl, rfl⟩
  | some an =>
  cases hh : h.asNumber with
  | none =>
    rw [postTelemetry_not_number a h d s (Or.inr (Or.inl hh))]
    exact Or.inl ⟨rfl, rfl⟩
  | some hn =>
  cases hd2 : d.asNumber with
  | none =>
    rw [postTelemetry_not_number a h d s (Or.inr (Or.inr hd2))]
    exact Or.inl ⟨rfl, rfl⟩
  | some dn =>
  rw [postTelemetry_some a h d an hn dn ha hh hd2 s]
  rcases an with qa | _ <;> rcases hn with qh | _ <;> rcases dn with qd | _
  · by_cases hv : validateTelemetry (.num qa) ((JSNum.num qh).mod360) (.num qd) = true
    · rw [if_pos hv]
      exact Or.inr ⟨qa, qh, qd, hv, rfl⟩
    · rw [if_neg hv]
      exact Or.inl ⟨rfl, rfl⟩
  all_goals
    rw [if_neg (by simp [JSNum.mod360, validateTelemetry_nan_alt,
        validateTelemetry_nan_his, validateTelemetry_nan_adi])]
    exact Or.inl ⟨rfl, rfl⟩

/-! ### Sorting by descending identifier -/

/-- Membership is preserved by `insertDesc`. -/
theorem mem_insertDesc {x d : TelemetryDoc} {l : List TelemetryDoc} :
    x ∈ insertDesc d l ↔ x = d ∨ x ∈ l := by
  induction l with
  | nil => simp [insertDesc]
  | cons e es ih =>
    simp only [insertDesc]
    split
    · simp
    · simp [ih]
      tauto

/-- Sorting by descending identifier returns exactly the stored documents. -/
theorem mem_sortByIdDesc {x : TelemetryDoc} {l : List TelemetryDoc} :
    x ∈ sortByIdDesc l ↔ x ∈ l := by
  induction l with
  | nil => simp [sortByIdDesc]
  | cons e es ih => simp [sortByIdDesc, mem_insertDesc, ih]

/-- Appending a document with a strictly larger identifier and sorting
puts it at the front. -/
theorem sortByIdDesc_append_newest (l : List TelemetryDoc) (d : TelemetryDoc)
    (hall : ∀ e ∈ l, e.docId < d.docId) :
    sortByIdDesc (l ++ [d]) = d :: sortByIdDesc l := by
  induction l with
  | nil => rfl
  | cons e es ih =>
    have he : e.docId < d.docId := hall e (by simp)
    have ih2 := ih fun x hx => hall x (by simp [hx])
    simp only [List.cons_append, sortByIdDesc, List.append_eq, ih2, insertDesc]
    rw [if_neg (by omega)]

/-- On a store whose documents sit in insertion order with strictly
increasing identifiers, sorting by descending identifier reverses them. -/
theorem sortByIdDesc_eq_reverse (l : List TelemetryDoc)
    (hl : l.Pairwise fun a b => a.docId < b.docId) :
    sortByIdDesc l = l.reverse := by
  induction l using List.reverseRecOn with
  | nil => rfl
  | append_singleton xs x ih =>
    rw [List.pairwise_append] at hl
    rw [sortByIdDesc_append_newest xs x fun e he => hl.2.2 e he x (by simp)]
    rw [ih hl.1, List.reverse_append]
    simp

/-! ### Claims -/

/-- C1, counterexample: the payload `Altitude 100, HIS -10, ADI 0` has all
three fields numeric with altitude in `[0, 3000]` and attitude in
`[-100, 100]`, yet submission does not succeed: the ECMAScript remainder
keeps the dividend's sign, so `-10 % 360 = -10`, the schema's `min: 0` on
`HIS` rejects the document, and the service answers 400 with the store's
message, storing nothing. -/
theorem C1_negative_heading_rejected :
    jsRem (-10) 360 = -10 ∧
    postTelemetry (.num 100) (.num (-10)) (.num 0) initialState =
      ((400, validationFailedMsg), initialState) := by
  constructor
  · decide
  · decide

/-- C1, amended: for every payload whose three fields are numeric with
altitude in `[0, 3000]`, heading any nonnegative number, and attitude in
`[-100, 100]`, submit succeeds and a subsequent list shows the new record
first with its heading replaced by `heading % 360`, the result lying in
`[0, 360)`. -/
theorem C1_submit_then_list_amended (a h d : ℚ) (s : ServerState)
    (hs : goodState s) (ha0 : 0 ≤ a) (ha1 : a ≤ 3000) (hh0 : 0 ≤ h)
    (hd0 : -100 ≤ d) (hd1 : d ≤ 100) :
    (postTelemetry (.num a) (.num h) (.num d) s).1 = (201, "Data saved") ∧
    (getTelemetry (postTelemetry (.num a) (.num h) (.num d) s).2).1.2 =
      ⟨s.nextId, .num a, .num (jsRem h 360), .num d⟩ :: s.docs.reverse ∧
    0 ≤ jsRem h 360 ∧ jsRem h 360 < 360 := by
  have hjn : 0 ≤ jsRem h 360 := jsRem_nonneg h hh0
  have hjl : jsRem h 360 < 360 := jsRem_lt h
  have hv : validateTelemetry (.num a) (.num (jsRem h 360)) (.num d) = true :=
    (validateTelemetry_num a (jsRem h 360) d).mpr
      ⟨ha0, ha1, hjn, le_of_lt hjl, hd0, hd1⟩
  rw [postTelemetry_num, if_pos hv]
  refine ⟨rfl, ?_, hjn, hjl⟩
  show sortByIdDesc
      (s.docs ++ [⟨s.nextId, .num a, .num (jsRem h 360), .num d⟩]) =
    ⟨s.nextId, .num a, .num (jsRem h 360), .num d⟩ :: s.docs.reverse
  rw [sortByIdDesc_append_newest s.docs _ hs.2,
    sortByIdDesc_eq_reverse s.docs hs.1]

/-- C1, witness of the amended claim at `Altitude 100, HIS 370, ADI 0` on
the empty store. -/
theorem C1_submit_then_list_amended_witness :
    (postTelemetry (.num 100) (.num 370) (.num 0) initialState).1 =
      (201, "Data saved") ∧
    (getTelemetry
        (postTelemetry (.num 100) (.num 370) (.num 0) initialState).2).1.2 =
      ⟨initialState.nextId, .num 100, .num (jsRem 370 360), .num 0⟩ ::
        initialState.docs.reverse ∧
    0 ≤ jsRem 370 360 ∧ jsRem 370 360 < 360 :=
  C1_submit_then_list_amended 100 370 0 initialState (by decide) (by decide)
    (by decide) (by decide) (by decide) (by decide)

/-- C2: if any of the three fields of a submitted payload is missing
(destructuring to `undefined`) or not numeric, the POST returns 400 with
exactly the message "Invalid input: all fields must be numbers" and the
store is not written. -/
theorem C2_type_check_rejects (a h d : JSVal) (s : ServerState)
    (hbad : a.asNumber = none ∨ h.asNumber = none ∨ d.asNumber = none) :
    postTelemetry a h d s = ((400, invalidInputMsg), s) ∧
    (postTelemetry a h d s).2.docs = s.docs ∧
    invalidInputMsg = "Invalid input: all fields must be numbers" :=
  ⟨postTelemetry_not_number a h d s hbad,
   by rw [postTelemetry_not_number a h d s hbad], rfl⟩

/-- C2, witness at the spec's example payload
`Altitude "x", HIS 10, ADI 0` on the empty store. -/
theorem C2_type_check_rejects_witness :
    postTelemetry (.str "x") (.num 10) (.num 0) initialState =
      ((400, invalidInputMsg), initialState) ∧
    (postTelemetry (.str "x") (.num 10) (.num 0) initialState).2.docs =
      initialState.docs ∧
    invalidInputMsg = "Invalid input: all fields must be numbers" :=
  C2_type_check_rejects (.str "x") (.num 10) (.num 0) initialState
    (Or.inl rfl)

/-- C6: submitting `Altitude 100, HIS 360, ADI 0` succeeds from any store
state and persists the document with `HIS` exactly 0. -/
theorem C6_his_360_stored_as_zero (s : ServerState) :
    postTelemetry (.num 100) (.num 360) (.num 0) s =
      ((201, "Data saved"),
       ⟨s.docs ++ [⟨s.nextId, .num 100, .num 0, .num 0⟩], s.nextId + 1⟩) := by
  have h0 : jsRem 360 360 = 0 := by decide
  rw [postTelemetry_num, h0, if_pos (by decide)]

/-- C6, witness on the empty store. -/
theorem C6_his_360_stored_as_zero_witness :
    postTelemetry (.num 100) (.num 360) (.num 0) initialState =
      ((201, "Data saved"),
       ⟨[⟨0, .num 100, .num 0, .num 0⟩], 1⟩) :=
  C6_his_360_stored_as_zero initialState

/-- C7: listing when zero readings have been stored returns 200 with an
empty array, not an error. -/
theorem C7_empty_list_ok :
    getTelemetry initialState = ((200, []), initialState) := rfl

/-- C3: the store's insert persists a reading exactly when altitude lies
in `[0, 3000]`, heading in `[0, 360]` and attitude in `[-100, 100]`; any
failing insert carries the `ValidationError` message and the service
surfaces a store rejection as 400 with that message, leaving the store
unchanged. -/
theorem C3_store_bounds (a h d : ℚ) (s : ServerState) :
    ((∃ s2, save (.num a) (.num h) (.num d) s = .ok s2) ↔
      (0 ≤ a ∧ a ≤ 3000 ∧ 0 ≤ h ∧ h ≤ 360 ∧ -100 ≤ d ∧ d ≤ 100)) ∧
    (∀ msg, save (.num a) (.num h) (.num d) s = .error msg →
      msg = validationFailedMsg) ∧
    (∀ msg, save (.num a) (.num (jsRem h 360)) (.num d) s = .error msg →
      postTelemetry (.num a) (.num h) (.num d) s = ((400, msg), s)) := by
  refine ⟨⟨?_, ?_⟩, ?_, ?_⟩
  · rintro ⟨s2, hs2⟩
    by_cases hv : validateTelemetry (.num a) (.num h) (.num d) = true
    · exact (validateTelemetry_num a h d).mp hv
    · simp only [Bool.not_eq_true] at hv
      simp [save, hv] at hs2
  · intro hb
    exact ⟨⟨s.docs ++ [⟨s.nextId, .num a, .num h, .num d⟩], s.nextId + 1⟩,
      by simp [save, (validateTelemetry_num a h d).mpr hb]⟩
  · intro msg hmsg
    by_cases hv : validateTelemetry (.num a) (.num h) (.num d) = true
    · simp [save, hv] at hmsg
    · simp only [Bool.not_eq_true] at hv
      simp [save, hv] at hmsg
      exact hmsg.symm
  · intro msg hmsg
    by_cases hv :
        validateTelemetry (.num a) (.num (jsRem h 360)) (.num d) = true
    · simp [save, hv] at hmsg
    · simp only [Bool.not_eq_true] at hv
      simp [save, hv] at hmsg
      rw [postTelemetry_num, if_neg (by simp [hv]), hmsg]

/-- C3, witness at the spec's out-of-range example
`Altitude 5000, HIS 10, ADI 0` on the empty store. -/
theorem C3_store_bounds_witness :
    postTelemetry (.num 5000) (.num 10) (.num 0) initialState =
      ((400, validationFailedMsg), initialState) :=
  (C3_store_bounds 5000 10 0 initialState).2.2 validationFailedMsg (by rfl)

/-- C4: on a well-formed store, listing returns 200 with the complete
stored history — no pagination, filter, or limit — ordered by descending
insertion-assigned identifier (newest first), and does not change the
store. -/
theorem C4_list_complete_newest_first (s : ServerState) (hs : goodState s) :
    getTelemetry s = ((200, s.docs.reverse), s) := by
  unfold getTelemetry
  rw [sortByIdDesc_eq_reverse s.docs hs.1]

/-- C4, witness: after submitting readings A (1,1,1), B (2,2,2) and
C (3,3,3) in that order, listing returns them as C, B, A. -/
theorem C4_list_complete_newest_first_witness :
    getTelemetry (postTelemetry (.num 3) (.num 3) (.num 3)
        (postTelemetry (.num 2) (.num 2) (.num 2)
          (postTelemetry (.num 1) (.num 1) (.num 1) initialState).2).2).2 =
      ((200, [⟨2, .num 3, .num 3, .num 3⟩, ⟨1, .num 2, .num 2, .num 2⟩,
              ⟨0, .num 1, .num 1, .num 1⟩]),
       ⟨[⟨0, .num 1, .num 1, .num 1⟩, ⟨1, .num 2, .num 2, .num 2⟩,
         ⟨2, .num 3, .num 3, .num 3⟩], 3⟩) := by
  have hst : (postTelemetry (.num 3) (.num 3) (.num 3)
      (postTelemetry (.num 2) (.num 2) (.num 2)
        (postTelemetry (.num 1) (.num 1) (.num 1) initialState).2).2).2 =
      ⟨[⟨0, .num 1, .num 1, .num 1⟩, ⟨1, .num 2, .num 2, .num 2⟩,
        ⟨2, .num 3, .num 3, .num 3⟩], 3⟩ := by decide
  rw [hst, C4_list_complete_newest_first _ (by decide)]
  rfl

/-- C5: every reading persisted through the service's handlers satisfies
all three range constraints, and its heading is stored already normalized
into `[0, 360)`. -/
theorem C5_persisted_invariant (s : ServerState) (hs : Reachable s) :
    ∀ doc ∈ s.docs, docInvariant doc = true := by
  induction hs with
  | init => intro doc hdoc; simp [initialState] at hdoc
  | post a h d hr ih =>
    intro doc hdoc
    rcases postTelemetry_cases a h d _ with ⟨heq, _⟩ | ⟨an, hn, dn, hv, heq⟩
    · rw [heq] at hdoc
      exact ih doc hdoc
    · rw [heq] at hdoc
      simp only [List.mem_append, List.mem_singleton] at hdoc
      rcases hdoc with hdoc | rfl
      · exact ih doc hdoc
      · rcases (validateTelemetry_num an (jsRem hn 360) dn).mp hv with
          ⟨h1, h2, h3, _, h5, h6⟩
        simp only [docInvariant, decide_eq_true_eq]
        exact ⟨h1, h2, h3, jsRem_lt hn, h5, h6⟩
  | get hr ih => exact ih

/-- C5, witness: the document created by submitting
`Altitude 100, HIS 10, ADI 0` on the empty store satisfies the invariant. -/
theorem C5_persisted_invariant_witness :
    docInvariant ⟨0, .num 100, .num 10, .num 0⟩ = true :=
  C5_persisted_invariant _
    (Reachable.post (.num 100) (.num 10) (.num 0) Reachable.init)
    ⟨0, .num 100, .num 10, .num 0⟩ (by decide)

/-- C8: submit is not idempotent — after one successful submission, an
identical submission succeeds again and appends a second record whose
identifier differs, and a subsequent list shows both records. -/
theorem C8_not_idempotent (a h d : ℚ) (s : ServerState)
    (h1 : (postTelemetry (.num a) (.num h) (.num d) s).1.1 = 201) :
    postTelemetry (.num a) (.num h) (.num d)
        (postTelemetry (.num a) (.num h) (.num d) s).2 =
      ((201, "Data saved"),
       ⟨s.docs ++ [⟨s.nextId, .num a, .num (jsRem h 360), .num d⟩,
                   ⟨s.nextId + 1, .num a, .num (jsRem h 360), .num d⟩],
        s.nextId + 2⟩) ∧
    ⟨s.nextId, .num a, .num (jsRem h 360), .num d⟩ ∈
      (getTelemetry (postTelemetry (.num a) (.num h) (.num d)
        (postTelemetry (.num a) (.num h) (.num d) s).2).2).1.2 ∧
    ⟨s.nextId + 1, .num a, .num (jsRem h 360), .num d⟩ ∈
      (getTelemetry (postTelemetry (.num a) (.num h) (.num d)
        (postTelemetry (.num a) (.num h) (.num d) s).2).2).1.2 ∧
    s.nextId ≠ s.nextId + 1 := by
  by_cases hv : validateTelemetry (.num a) (.num (jsRem h 360)) (.num d) = true
  · have hin : postTelemetry (.num a) (.num h) (.num d) s =
        ((201, "Data saved"),
         ⟨s.docs ++ [⟨s.nextId, .num a, .num (jsRem h 360), .num d⟩],
          s.nextId + 1⟩) := by
      rw [postTelemetry_num, if_pos hv]
    have hout : postTelemetry (.num a) (.num h) (.num d)
        (postTelemetry (.num a) (.num h) (.num d) s).2 =
      ((201, "Data saved"),
       ⟨s.docs ++ [⟨s.nextId, .num a, .num (jsRem h 360), .num d⟩,
                   ⟨s.nextId + 1, .num a, .num (jsRem h 360), .num d⟩],
        s.nextId + 2⟩) := by
      rw [hin, postTelemetry_num, if_pos hv]
      simp [List.append_assoc]
    refine ⟨hout, ?_, ?_, by omega⟩ <;>
      rw [hout] <;>
      simp [getTelemetry, mem_sortByIdDesc]
  · rw [postTelemetry_num, if_neg hv] at h1
    simp at h1

/-- C8, witness: resubmitting `Altitude 1, HIS 2, ADI 3` on the empty
store creates two records with identifiers 0 and 1. -/
theorem C8_not_idempotent_witness :
    postTelemetry (.num 1) (.num 2) (.num 3)
        (postTelemetry (.num 1) (.num 2) (.num 3) initialState).2 =
      ((201, "Data saved"),
       ⟨initialState.docs ++
          [⟨initialState.nextId, .num 1, .num (jsRem 2 360), .num 3⟩,
           ⟨initialState.nextId + 1, .num 1, .num (jsRem 2 360), .num 3⟩],
        initialState.nextId + 2⟩) ∧
    ⟨initialState.nextId, .num 1, .num (jsRem 2 360), .num 3⟩ ∈
      (getTelemetry (postTelemetry (.num 1) (.num 2) (.num 3)
        (postTelemetry (.num 1) (.num 2) (.num 3) initialState).2).2).1.2 ∧
    ⟨initialState.nextId + 1, .num 1, .num (jsRem 2 360), .num 3⟩ ∈
      (getTelemetry (postTelemetry (.num 1) (.num 2) (.num 3)
        (postTelemetry (.num 1) (.num 2) (.num 3) initialState).2).2).1.2 ∧
    initialState.nextId ≠ initialState.nextId + 1 :=
  C8_not_idempotent 1 2 3 initialState (by decide)

/-- C9: the system is append-only — a successful submit adds exactly one
record at the end, leaving every existing record unchanged; a failed
submit leaves the store unchanged; list never changes the store. -/
theorem C9_append_only (a h d : JSVal) (s : ServerState) :
    ((postTelemetry a h d s).1.1 = 201 →
      ∃ doc, (postTelemetry a h d s).2.docs = s.docs ++ [doc] ∧
        (postTelemetry a h d s).2.nextId = s.nextId + 1) ∧
    ((postTelemetry a h d s).1.1 ≠ 201 → (postTelemetry a h d s).2 = s) ∧
    (getTelemetry s).2 = s := by
  rcases postTelemetry_cases a h d s with ⟨heq, hst⟩ | ⟨an, hn, dn, hv, heq⟩
  · refine ⟨?_, fun _ => heq, rfl⟩
    intro h201
    rw [hst] at h201
    simp at h201
  · refine ⟨fun _ => ⟨⟨s.nextId, .num an, .num (jsRem hn 360), .num dn⟩,
      ?_, ?_⟩, ?_, rfl⟩
    · rw [heq]
    · rw [heq]
    · intro hne
      rw [heq] at hne
      exact absurd rfl hne

/-- C9, witness on the empty store with the reading `(1, 2, 3)`. -/
theorem C9_append_only_witness :
    (∃ doc, (postTelemetry (.num 1) (.num 2) (.num 3) initialState).2.docs =
        initialState.docs ++ [doc] ∧
      (postTelemetry (.num 1) (.num 2) (.num 3) initialState).2.nextId =
        initialState.nextId + 1) ∧
    (getTelemetry initialState).2 = initialState :=
  ⟨(C9_append_only (.num 1) (.num 2) (.num 3) initialState).1 (by decide),
   (C9_append_only (.num 1) (.num 2) (.num 3) initialState).2.2⟩

/-- C10: a payload whose fields are present but equal to `NaN` passes the
service's `typeof` check, so the fixed "Invalid input" 400 is never
returned for `NaN` fields; the request reaches the store path and the
rejection comes from the persistence layer, with the store's message. -/
theorem C10_nan_reaches_store (a h d : JSVal) (s : ServerState)
    (ha : a.typeofIsNumber = true) (hh : h.typeofIsNumber = true)
    (hd : d.typeofIsNumber = true)
    (hnan : a = JSVal.nan ∨ h = JSVal.nan ∨ d = JSVal.nan) :
    postTelemetry a h d s = ((400, validationFailedMsg), s) ∧
    validationFailedMsg ≠ invalidInputMsg := by
  refine ⟨?_, by decide⟩
  have han : a.asNumber.isSome := by
    cases a <;> simp_all [JSVal.typeofIsNumber, JSVal.asNumber]
  have hhn : h.asNumber.isSome := by
    cases h <;> simp_all [JSVal.typeofIsNumber, JSVal.asNumber]
  have hdn : d.asNumber.isSome := by
    cases d <;> simp_all [JSVal.typeofIsNumber, JSVal.asNumber]
  rcases Option.isSome_iff_exists.mp han with ⟨an, han2⟩
  rcases Option.isSome_iff_exists.mp hhn with ⟨hn, hhn2⟩
  rcases Option.isSome_iff_exists.mp hdn with ⟨dn, hdn2⟩
  rw [postTelemetry_some a h d an hn dn han2 hhn2 hdn2 s]
  have hvf : validateTelemetry an hn.mod360 dn = false := by
    rcases hnan with rfl | rfl | rfl
    · have : an = JSNum.nan := by
        simp [JSVal.asNumber] at han2
        exact han2.symm
      rw [this, validateTelemetry_nan_alt]
    · have : hn = JSNum.nan := by
        simp [JSVal.asNumber] at hhn2
        exact hhn2.symm
      rw [this]
      exact validateTelemetry_nan_his _ _
    · have : dn = JSNum.nan := by
        simp [JSVal.asNumber] at hdn2
        exact hdn2.symm
      rw [this, validateTelemetry_nan_adi]
  rw [if_neg (by simp [hvf])]

/-- C10, witness: submitting `Altitude NaN, HIS 10, ADI 0` on the empty
store yields the store's 400, not the fixed type-check message. -/
theorem C10_nan_reaches_store_witness :
    postTelemetry .nan (.num 10) (.num 0) initialState =
      ((400, validationFailedMsg), initialState) ∧
    validationFailedMsg ≠ invalidInputMsg :=
  C10_nan_reaches_store .nan (.num 10) (.num 0) initialState rfl rfl rfl
    (Or.inl rfl)

end FlightMonitor
